import Mathlib

set_option autoImplicit false

namespace Notarization

/-!
Shallow embedding of the notarization transaction-construction core
(notarization-rs). Machine integers that cannot overflow in the modelled
paths (u32 timestamps, object ids) are modelled as Nat; Rust `Result` is
modelled as `Except`; Rust `Option` as `Option`.
-/

instance instDecEqExcept {ε α : Type} [DecidableEq ε] [DecidableEq α] :
    DecidableEq (Except ε α) := fun x y =>
  match x, y with
  | .ok a, .ok b =>
      if h : a = b then isTrue (by rw [h])
      else isFalse (by intro hh; cases hh; exact h rfl)
  | .error a, .error b =>
      if h : a = b then isTrue (by rw [h])
      else isFalse (by intro hh; cases hh; exact h rfl)
  | .ok _, .error _ => isFalse (by intro hh; cases hh)
  | .error _, .ok _ => isFalse (by intro hh; cases hh)

/-- Error taxonomy, from src/error.rs (variants used by the modelled core). -/
inductive Error where
  | InvalidKey (msg : String)
  | InvalidConfig (msg : String)
  | RpcError (msg : String)
  | GenericError (msg : String)
  | FailedToParseTag (msg : String)
  | InvalidArgument (msg : String)
  | TimeLockErr (msg : String)
  | UnexpectedApiResponse (msg : String)
  | DeserializationError (msg : String)
  | TransactionUnexpectedResponse (msg : String)
  | ObjectLookup (msg : String)
deriving DecidableEq, Repr

/-- True exactly for the `UnexpectedApiResponse` error kind. -/
def Error.isUnexpectedApiResponse : Error → Bool
  | .UnexpectedApiResponse _ => true
  | _ => false

/-- TimeLock, from src/core/types/timelock.rs: `UnlockAt(u32)`,
`UntilDestroyed`, `None`. -/
inductive TimeLock where
  | unlockAt (unlockTime : Nat)
  | untilDestroyed
  | none
deriving DecidableEq, Repr

/-- LockMetadata, from src/core/types/timelock.rs. -/
structure LockMetadata where
  update_lock : TimeLock
  delete_lock : TimeLock
  transfer_lock : TimeLock
deriving DecidableEq, Repr

/-- NotarizationMethod, from src/core/types/mod.rs usage: `Dynamic | Locked`. -/
inductive NotarizationMethod where
  | Dynamic
  | Locked
deriving DecidableEq, Repr

/-- Data, from src/core/types/state.rs: `Bytes(Vec<u8>) | Text(String)`.
Bytes are modelled as `List Nat` of byte values. -/
inductive Data where
  | Bytes (b : List Nat)
  | Text (s : String)
deriving DecidableEq, Repr

/-- State, from src/core/types/state.rs. -/
structure State where
  data : Data
  metadata : Option String
deriving DecidableEq, Repr

/-- Data.as_bytes, from src/core/types/state.rs. -/
def Data.as_bytes : Data → Except Error (List Nat)
  | .Bytes d => .ok d
  | .Text _ => .error (.GenericError "Data is not a vector")

/-- Data.as_text, from src/core/types/state.rs. -/
def Data.as_text : Data → Except Error String
  | .Bytes _ => .error (.GenericError "Data is not a string")
  | .Text d => .ok d

/-- State::from_bytes, from src/core/types/state.rs. -/
def State.from_bytes (data : List Nat) (metadata : Option String) : State :=
  { data := Data.Bytes data, metadata := metadata }

/-- State::from_string, from src/core/types/state.rs. -/
def State.from_string (data : String) (metadata : Option String) : State :=
  { data := Data.Text data, metadata := metadata }

/-- CreateNotarization::are_dynamic_notarization_invariants_ok, from
src/core/transactions/create.rs lines 54-63. -/
def are_dynamic_notarization_invariants_ok (locking : Option LockMetadata) : Bool :=
  match locking with
  | some lock_metadata =>
      decide (lock_metadata.delete_lock = TimeLock.none)
        && decide (lock_metadata.update_lock = TimeLock.none)
        && decide (lock_metadata.transfer_lock ≠ TimeLock.none)
  | Option.none => true

/-- CreateNotarization::are_locked_notarization_invariants_ok, from
src/core/transactions/create.rs lines 69-77. -/
def are_locked_notarization_invariants_ok (locking : Option LockMetadata) : Bool :=
  match locking with
  | some lock_metadata =>
      decide (lock_metadata.transfer_lock = TimeLock.untilDestroyed)
        && decide (lock_metadata.update_lock = TimeLock.untilDestroyed)
  | Option.none => false

/-!
Instruction model of the programmable transaction builder (the
iota_interaction `ProgrammableTransactionBuilder`, an external dependency of
the repository). Inputs and commands are accumulated in order; `pure` and
`obj` append an input and return its index, `programmable_move_call` appends
a command. The inputs emitted by the modelled operations are pairwise
distinct, so the input-deduplication of the concrete builder never fires on
these paths and plain appending is faithful to it.
-/

/-- Move type tags, as resolved for notarization objects. -/
inductive TypeTag where
  | vectorU8
  | moveString
  | otherTag (s : String)
deriving DecidableEq, Repr

/-- A versioned reference to an on-chain object. -/
structure ObjectRef where
  objectId : Nat
  version : Nat
  digest : Nat
deriving DecidableEq, Repr

/-- Object arguments: owned object references or shared objects. -/
inductive ObjectArg where
  | immOrOwnedObject (r : ObjectRef)
  | sharedObject (id : Nat) (initialSharedVersion : Nat) (isMutable : Bool)
deriving DecidableEq, Repr

/-- Serialized pure argument values (BCS payloads, by provenance). -/
inductive PureValue where
  | bytesVal (b : List Nat)
  | textVal (s : String)
  | optStringVal (s : Option String)
  | u32Val (n : Nat)
  | addressVal (a : Nat)
deriving DecidableEq, Repr

/-- One input slot of a programmable transaction. -/
inductive PtbInput where
  | pureArg (v : PureValue)
  | objArg (o : ObjectArg)
deriving DecidableEq, Repr

/-- Call arguments: references to input slots or prior command results. -/
inductive Argument where
  | input (i : Nat)
  | result (i : Nat)
deriving DecidableEq, Repr

/-- A single Move call command. -/
structure MoveCall where
  package : Nat
  moduleName : String
  functionName : String
  typeArgs : List TypeTag
  args : List Argument
deriving DecidableEq, Repr

/-- Builder state / finished programmable transaction: ordered inputs plus
ordered commands. -/
structure Ptb where
  inputs : List PtbInput
  commands : List MoveCall
deriving DecidableEq, Repr

/-- A fresh builder. -/
def Ptb.empty : Ptb :=
  { inputs := [], commands := [] }

/-- Append a pure input, returning its `Argument::Input` index. -/
def Ptb.pushPure (p : Ptb) (v : PureValue) : Argument × Ptb :=
  (Argument.input p.inputs.length, { p with inputs := p.inputs ++ [PtbInput.pureArg v] })

/-- Append an object input, returning its `Argument::Input` index. -/
def Ptb.obj (p : Ptb) (o : ObjectArg) : Argument × Ptb :=
  (Argument.input p.inputs.length, { p with inputs := p.inputs ++ [PtbInput.objArg o] })

/-- Append a move-call command, returning its `Argument::Result` index. -/
def Ptb.moveCall (p : Ptb) (c : MoveCall) : Argument × Ptb :=
  (Argument.result p.commands.length, { p with commands := p.commands ++ [c] })

/-- The well-known shared clock object id (`IOTA_CLOCK_OBJECT_ID`, `0x6`). -/
def IOTA_CLOCK_OBJECT_ID : Nat := 6

/-- The initial shared version of the clock object. -/
def IOTA_CLOCK_OBJECT_SHARED_VERSION : Nat := 1

/-- The clock input emitted by `get_clock_ref`. -/
def clockObjectArg : ObjectArg :=
  ObjectArg.sharedObject IOTA_CLOCK_OBJECT_ID IOTA_CLOCK_OBJECT_SHARED_VERSION false

/-- move_utils::get_clock_ref, from src/core/move_utils.rs lines 18-25. -/
def get_clock_ref (p : Ptb) : Argument × Ptb :=
  p.obj clockObjectArg

/-- move_utils::ptb_pure, from src/core/move_utils.rs lines 27-36. BCS
serialization of the plain value types used on the modelled paths (byte
vectors, strings, optional strings, u32, addresses) never fails, so the
error branch of the source function is unreachable here and the result is
always `ok`. -/
def ptb_pure (p : Ptb) (_name : String) (value : PureValue) : Except Error (Argument × Ptb) :=
  Except.ok (p.pushPure value)

/-- Outcome of a Rust function that can also panic: `ok`, `err`, or an
uncaught panic. -/
inductive ParseOutcome where
  | ok (s : String)
  | err (e : Error)
  | panicked
deriving DecidableEq, Repr

/-- Index of the first occurrence of `c`, if any. -/
def firstIdx (cs : List Char) (c : Char) : Option Nat :=
  List.findIdx? (fun x => x = c) cs

/-- Index of the last occurrence of `c`, if any. -/
def lastIdx (cs : List Char) (c : Char) : Option Nat :=
  (List.findIdx? (fun x => x = c) cs.reverse).map (fun k => cs.length - 1 - k)

/-- move_utils::parse_type, from src/core/move_utils.rs lines 76-84. The
source computes `full_type[start + 1..end]` where `start` is the byte index
of the first `<` and `end` the byte index of the last `>`; both characters
are one byte, so byte positions and char positions order identically and
the slice is exactly the chars strictly between the two. When
`start + 1 > end` the Rust slice operation panics, modelled by
`ParseOutcome.panicked`. -/
def parse_type (full_type : String) : ParseOutcome :=
  let cs := full_type.data
  match firstIdx cs '<', lastIdx cs '>' with
  | some start, some stop =>
      if start < stop then
        ParseOutcome.ok (String.mk ((cs.drop (start + 1)).take (stop - (start + 1))))
      else
        ParseOutcome.panicked
  | _, _ =>
      ParseOutcome.err
        (Error.FailedToParseTag ("Could not parse type parameter from " ++ full_type))

/-- Display rendering of errors, from the thiserror attributes in
src/error.rs; used where the source wraps an inner error message into an
outer one via string interpolation. -/
def Error.message : Error → String
  | .InvalidKey m => "invalid key: " ++ m
  | .InvalidConfig m => "invalid config: " ++ m
  | .RpcError m => "RPC error: " ++ m
  | .GenericError m => m
  | .FailedToParseTag m => "Failed to parse tag: " ++ m
  | .InvalidArgument m => "Invalid argument: " ++ m
  | .TimeLockErr m => "Invalid unlock time: " ++ m
  | .UnexpectedApiResponse m => "unexpected API response: " ++ m
  | .DeserializationError m => "BCS deserialization error: " ++ m
  | .TransactionUnexpectedResponse m => "unexpected API response: " ++ m
  | .ObjectLookup m => "Failed to get object with options: " ++ m

/-- Validity of a Move identifier character at the start of the name. -/
def isIdentStart (c : Char) : Bool :=
  c.isAlpha || c = '_'

/-- Validity of a Move identifier character after the first. -/
def isIdentCont (c : Char) : Bool :=
  c.isAlphanum || c = '_'

/-- Validity check performed by `Identifier::from_str` in
src/core/operations.rs line 79: nonempty, leading alphabetic or underscore
character, alphanumeric or underscore afterwards. -/
def isValidIdentifier (s : String) : Bool :=
  match s.data with
  | [] => false
  | c :: cs => isIdentStart c && cs.all isIdentCont

/-- timelock::new_unlock_at, from src/core/types/timelock.rs lines 81-92. -/
def new_unlock_at (p : Ptb) (unlock_time : Nat) (package_id : Nat) :
    Except Error (Argument × Ptb) := do
  let (clock, p) := get_clock_ref p
  let (ut, p) ← ptb_pure p "unlock_time" (PureValue.u32Val unlock_time)
  Except.ok (p.moveCall
    { package := package_id, moduleName := "timelock", functionName := "unlock_at",
      typeArgs := [], args := [ut, clock] })

/-- timelock::new_until_destroyed, from src/core/types/timelock.rs lines 95-103. -/
def new_until_destroyed (p : Ptb) (package_id : Nat) : Except Error (Argument × Ptb) :=
  Except.ok (p.moveCall
    { package := package_id, moduleName := "timelock", functionName := "until_destroyed",
      typeArgs := [], args := [] })

/-- timelock::new_none, from src/core/types/timelock.rs lines 106-114. -/
def new_none (p : Ptb) (package_id : Nat) : Except Error (Argument × Ptb) :=
  Except.ok (p.moveCall
    { package := package_id, moduleName := "timelock", functionName := "none",
      typeArgs := [], args := [] })

/-- TimeLock::to_ptb, from src/core/types/timelock.rs lines 71-77. -/
def TimeLock.to_ptb (l : TimeLock) (p : Ptb) (package_id : Nat) :
    Except Error (Argument × Ptb) :=
  match l with
  | .unlockAt unlock_time => new_unlock_at p unlock_time package_id
  | .untilDestroyed => new_until_destroyed p package_id
  | .none => new_none p package_id

/-- Data::tag, from src/core/types/state.rs lines 107-113. -/
def Data.tag : Data → TypeTag
  | .Bytes _ => TypeTag.vectorU8
  | .Text _ => TypeTag.moveString

/-- state_from_bytes, from src/core/types/state.rs lines 242-258. -/
def state_from_bytes (p : Ptb) (data : List Nat) (metadata : Option String)
    (package_id : Nat) : Except Error (Argument × Ptb) := do
  let (dataArg, p) ← ptb_pure p "data" (PureValue.bytesVal data)
  let (metaArg, p) ← ptb_pure p "metadata" (PureValue.optStringVal metadata)
  Except.ok (p.moveCall
    { package := package_id, moduleName := "notarization",
      functionName := "new_state_from_bytes", typeArgs := [], args := [dataArg, metaArg] })

/-- state_from_string, from src/core/types/state.rs lines 261-277. -/
def state_from_string (p : Ptb) (data : String) (metadata : Option String)
    (package_id : Nat) : Except Error (Argument × Ptb) := do
  let (dataArg, p) ← ptb_pure p "data" (PureValue.textVal data)
  let (metaArg, p) ← ptb_pure p "metadata" (PureValue.optStringVal metadata)
  Except.ok (p.moveCall
    { package := package_id, moduleName := "notarization",
      functionName := "new_state_from_string", typeArgs := [], args := [dataArg, metaArg] })

/-- State::into_ptb, from src/core/types/state.rs lines 229-238. -/
def State.into_ptb (s : State) (p : Ptb) (package_id : Nat) :
    Except Error (Argument × Ptb) :=
  match s.data with
  | .Bytes data => state_from_bytes p data s.metadata package_id
  | .Text data => state_from_string p data s.metadata package_id

/-- NotarizationOperations::new_locked, from src/core/operations.rs
lines 103-128. -/
def new_locked (package_id : Nat) (state : State) (immutable_description : Option String)
    (updatable_metadata : Option String) (delete_lock : TimeLock) : Except Error Ptb := do
  let p := Ptb.empty
  let tag := state.data.tag
  let (clock, p) := get_clock_ref p
  let (state_arg, p) ← state.into_ptb p package_id
  let (descArg, p) ← ptb_pure p "immutable_description" (PureValue.optStringVal immutable_description)
  let (metaArg, p) ← ptb_pure p "updatable_metadata" (PureValue.optStringVal updatable_metadata)
  let (dlArg, p) ← delete_lock.to_ptb p package_id
  let (_, p) := p.moveCall
    { package := package_id, moduleName := "locked_notarization", functionName := "create",
      typeArgs := [tag], args := [state_arg, descArg, metaArg, dlArg, clock] }
  Except.ok p

/-- NotarizationOperations::new_dynamic, from src/core/operations.rs
lines 131-162. -/
def new_dynamic (package_id : Nat) (state : State) (immutable_description : Option String)
    (updatable_metadata : Option String) (transfer_lock : TimeLock) : Except Error Ptb := do
  let p := Ptb.empty
  let tag := state.data.tag
  let (clock, p) := get_clock_ref p
  let (state_arg, p) ← state.into_ptb p package_id
  let (descArg, p) ← ptb_pure p "immutable_description" (PureValue.optStringVal immutable_description)
  let (metaArg, p) ← ptb_pure p "updatable_metadata" (PureValue.optStringVal updatable_metadata)
  let (tlArg, p) ← transfer_lock.to_ptb p package_id
  let (_, p) := p.moveCall
    { package := package_id, moduleName := "dynamic_notarization", functionName := "create",
      typeArgs := [tag], args := [state_arg, descArg, metaArg, tlArg, clock] }
  Except.ok p

/-- NotarizationImpl::build_transaction, from src/core/operations.rs
lines 50-92. The network resolutions (`get_type_tag`, `get_object_ref_by_id`)
are passed in as their resolved values `tag` and `ref_`; the caller-supplied
closure `additional_args` appends operation-specific arguments. -/
def build_transaction (pkg : Nat) (tag : TypeTag) (ref_ : ObjectRef) (method : String)
    (additional_args : Ptb → Except Error (List Argument × Ptb)) : Except Error Ptb := do
  let p := Ptb.empty
  let tags := [tag]
  let (notarArg, p) := p.obj (ObjectArg.immOrOwnedObject ref_)
  let (extra, p) ←
    match additional_args p with
    | .ok r => Except.ok r
    | .error e =>
        Except.error (Error.InvalidArgument ("Failed to add additional arguments: " ++ e.message))
  let args := notarArg :: extra
  if isValidIdentifier method then
    let (_, p) := p.moveCall
      { package := pkg, moduleName := "notarization", functionName := method,
        typeArgs := tags, args := args }
    Except.ok p
  else
    Except.error (Error.InvalidArgument ("Invalid method name " ++ method))

/-- NotarizationOperations::transfer_notarization, from
src/core/operations.rs lines 307-337; network resolutions passed in as
resolved values, as in `build_transaction`. -/
def transfer_notarization (pkg : Nat) (tag : TypeTag) (ref_ : ObjectRef)
    (recipient : Nat) : Except Error Ptb := do
  let p := Ptb.empty
  let tags := [tag]
  let (recipArg, p) := p.pushPure (PureValue.addressVal recipient)
  let (notarArg, p) := p.obj (ObjectArg.immOrOwnedObject ref_)
  let (clock, p) := get_clock_ref p
  let (_, p) := p.moveCall
    { package := pkg, moduleName := "dynamic_notarization", functionName := "transfer",
      typeArgs := tags, args := [notarArg, recipArg, clock] }
  Except.ok p

/-- The call sequence that `build_transaction` would produce for the
transfer operation, per the claim that transfer is an instantiation of the
generic builder with the recipient-plus-clock argument closure. -/
def transfer_via_build_transaction (pkg : Nat) (tag : TypeTag) (ref_ : ObjectRef)
    (recipient : Nat) : Except Error Ptb :=
  build_transaction pkg tag ref_ "transfer" (fun p =>
    let (recipArg, p) := p.pushPure (PureValue.addressVal recipient)
    let (clock, p) := get_clock_ref p
    Except.ok ([recipArg, clock], p))

/-- NotarizationBuilder, from src/core/builder.rs lines 66-80. The Rust
type-state marker `M` is erased; which mutators the typed API exposes is
captured by the reachability predicates `LockedApi` and `DynamicApi`
below. -/
structure NotarizationBuilder where
  state : Option State
  immutable_description : Option String
  updatable_metadata : Option String
  delete_lock : Option TimeLock
  transfer_lock : Option TimeLock
  method : NotarizationMethod
deriving DecidableEq, Repr

/-- NotarizationBuilder::locked, from src/core/builder.rs lines 96-106. -/
def NotarizationBuilder.locked : NotarizationBuilder :=
  { state := Option.none, immutable_description := Option.none,
    updatable_metadata := Option.none, delete_lock := Option.none,
    transfer_lock := Option.none, method := NotarizationMethod.Locked }

/-- NotarizationBuilder::dynamic, from src/core/builder.rs lines 164-174. -/
def NotarizationBuilder.dynamic : NotarizationBuilder :=
  { state := Option.none, immutable_description := Option.none,
    updatable_metadata := Option.none, delete_lock := Option.none,
    transfer_lock := Option.none, method := NotarizationMethod.Dynamic }

/-- NotarizationBuilder::with_state, from src/core/builder.rs lines 237-240. -/
def NotarizationBuilder.with_state (b : NotarizationBuilder) (s : State) : NotarizationBuilder :=
  { b with state := some s }

/-- NotarizationBuilder::with_bytes_state, from src/core/builder.rs lines 260-262. -/
def NotarizationBuilder.with_bytes_state (b : NotarizationBuilder) (data : List Nat)
    (metadata : Option String) : NotarizationBuilder :=
  b.with_state (State.from_bytes data metadata)

/-- NotarizationBuilder::with_string_state, from src/core/builder.rs lines 283-285. -/
def NotarizationBuilder.with_string_state (b : NotarizationBuilder) (data : String)
    (metadata : Option String) : NotarizationBuilder :=
  b.with_state (State.from_string data metadata)

/-- NotarizationBuilder::with_immutable_description, from src/core/builder.rs
lines 300-303. -/
def NotarizationBuilder.with_immutable_description (b : NotarizationBuilder)
    (description : String) : NotarizationBuilder :=
  { b with immutable_description := some description }

/-- NotarizationBuilder::with_updatable_metadata, from src/core/builder.rs
lines 318-321. -/
def NotarizationBuilder.with_updatable_metadata (b : NotarizationBuilder)
    (metadata : String) : NotarizationBuilder :=
  { b with updatable_metadata := some metadata }

/-- NotarizationBuilder::<Locked>::with_delete_lock, from src/core/builder.rs
lines 123-126. -/
def NotarizationBuilder.with_delete_lock (b : NotarizationBuilder) (lock : TimeLock) :
    NotarizationBuilder :=
  { b with delete_lock := some lock }

/-- NotarizationBuilder::<Dynamic>::with_transfer_lock, from
src/core/builder.rs lines 196-199. -/
def NotarizationBuilder.with_transfer_lock (b : NotarizationBuilder) (lock : TimeLock) :
    NotarizationBuilder :=
  { b with transfer_lock := some lock }

/-- The builder configurations reachable through the typed
`NotarizationBuilder<Locked>` API: start from `locked()`, then any chain of
the shared mutators and `with_delete_lock`; `with_transfer_lock` does not
exist on the Locked type. -/
inductive LockedApi : NotarizationBuilder → Prop where
  | locked : LockedApi NotarizationBuilder.locked
  | with_state (b : NotarizationBuilder) (s : State) :
      LockedApi b → LockedApi (b.with_state s)
  | with_bytes_state (b : NotarizationBuilder) (d : List Nat) (m : Option String) :
      LockedApi b → LockedApi (b.with_bytes_state d m)
  | with_string_state (b : NotarizationBuilder) (d : String) (m : Option String) :
      LockedApi b → LockedApi (b.with_string_state d m)
  | with_immutable_description (b : NotarizationBuilder) (d : String) :
      LockedApi b → LockedApi (b.with_immutable_description d)
  | with_updatable_metadata (b : NotarizationBuilder) (m : String) :
      LockedApi b → LockedApi (b.with_updatable_metadata m)
  | with_delete_lock (b : NotarizationBuilder) (l : TimeLock) :
      LockedApi b → LockedApi (b.with_delete_lock l)

/-- The builder configurations reachable through the typed
`NotarizationBuilder<Dynamic>` API: start from `dynamic()`, then any chain of
the shared mutators and `with_transfer_lock`; `with_delete_lock` does not
exist on the Dynamic type. -/
inductive DynamicApi : NotarizationBuilder → Prop where
  | dynamic : DynamicApi NotarizationBuilder.dynamic
  | with_state (b : NotarizationBuilder) (s : State) :
      DynamicApi b → DynamicApi (b.with_state s)
  | with_bytes_state (b : NotarizationBuilder) (d : List Nat) (m : Option String) :
      DynamicApi b → DynamicApi (b.with_bytes_state d m)
  | with_string_state (b : NotarizationBuilder) (d : String) (m : Option String) :
      DynamicApi b → DynamicApi (b.with_string_state d m)
  | with_immutable_description (b : NotarizationBuilder) (d : String) :
      DynamicApi b → DynamicApi (b.with_immutable_description d)
  | with_updatable_metadata (b : NotarizationBuilder) (m : String) :
      DynamicApi b → DynamicApi (b.with_updatable_metadata m)
  | with_transfer_lock (b : NotarizationBuilder) (l : TimeLock) :
      DynamicApi b → DynamicApi (b.with_transfer_lock l)

/-- CreateNotarization, from src/core/transactions/create.rs lines 35-38.
The `cached_ptb` once-cell only memoizes the first successful compile and
is immaterial to the compiled sequence itself, so it is not part of the
model. -/
structure CreateNotarization where
  builder : NotarizationBuilder
deriving DecidableEq, Repr

/-- TransactionBuilder wrapper returned by `finish()` (product_common). -/
structure TransactionBuilder where
  transaction : CreateNotarization
deriving DecidableEq, Repr

/-- NotarizationBuilder::<Locked>::finish, from src/core/builder.rs
lines 145-147: always returns `Ok`. -/
def NotarizationBuilder.finishLocked (b : NotarizationBuilder) :
    Except Error TransactionBuilder :=
  Except.ok { transaction := { builder := b } }

/-- NotarizationBuilder::<Dynamic>::finish, from src/core/builder.rs
lines 216-218: infallible. -/
def NotarizationBuilder.finishDynamic (b : NotarizationBuilder) : TransactionBuilder :=
  { transaction := { builder := b } }

/-- The lock metadata derived on the Dynamic create path, from the local
`locking` binding in src/core/transactions/create.rs lines 104-108. -/
def dynamicLocking (transfer_lock : Option TimeLock) : Option LockMetadata :=
  transfer_lock.map (fun t_lock =>
    { update_lock := TimeLock.none, delete_lock := TimeLock.none, transfer_lock := t_lock })

/-- The lock metadata derived on the Locked create path, from the local
`locking` binding in src/core/transactions/create.rs lines 133-137. -/
def lockedLocking (delete_lock : Option TimeLock) : Option LockMetadata :=
  some
    { update_lock := TimeLock.untilDestroyed,
      delete_lock := delete_lock.getD TimeLock.none,
      transfer_lock := TimeLock.untilDestroyed }

/-- CreateNotarization::make_ptb, from src/core/transactions/create.rs
lines 80-155. The package-id resolution (`notarization_package_id`, a
network lookup performed first) is passed in as its outcome
`package_lookup`. -/
def CreateNotarization.make_ptb (c : CreateNotarization)
    (package_lookup : Except Error Nat) : Except Error Ptb := do
  let b := c.builder
  let package_id ← package_lookup
  let state ←
    match b.state with
    | some s => Except.ok s
    | Option.none => Except.error (Error.InvalidArgument "State is required")
  match b.method with
  | NotarizationMethod.Dynamic =>
      if b.delete_lock.isSome then
        Except.error
          (Error.InvalidArgument "Delete lock cannot be set for dynamic notarizations")
      else
        let locking := dynamicLocking b.transfer_lock
        if !are_dynamic_notarization_invariants_ok locking then
          Except.error
            (Error.InvalidArgument "Dynamic notarization invariants are not satisfied")
        else
          new_dynamic package_id state b.immutable_description b.updatable_metadata
            (b.transfer_lock.getD TimeLock.none)
  | NotarizationMethod.Locked =>
      if b.transfer_lock.isSome then
        Except.error
          (Error.InvalidArgument "Transfer lock cannot be set for locked notarizations")
      else
        let locking := lockedLocking b.delete_lock
        if !are_locked_notarization_invariants_ok locking then
          Except.error
            (Error.InvalidArgument "Locked notarization invariants are not satisfied")
        else
          new_locked package_id state b.immutable_description b.updatable_metadata
            (b.delete_lock.getD TimeLock.none)

/-- One execution result of a dev-inspect simulation: its ordered list of
return values, each a BCS byte payload (the accompanying type descriptor in
the pair is not consulted by the decoder). -/
structure ExecutionResult where
  return_values : List (List Nat)
deriving DecidableEq, Repr

/-- The dev-inspect simulation response shape consumed by the decoder:
an optional list of execution results. -/
structure DevInspectResults where
  results : Option (List ExecutionResult)
deriving DecidableEq, Repr

/-- IotaAddress::ZERO, the fixed zero-valued sender used for simulation. -/
def IotaAddress_ZERO : Nat := 0

/-- A single apostrophe character, as a string. -/
def squote : String := String.mk ['\'']

/-- The message of the error raised when the simulation response has no
`results` field (src/client/read_only.rs line 422). -/
def resultsMissingMsg : String :=
  "DevInspectResults missing " ++ squote ++ "results" ++ squote ++ " field"

/-- NotarizationClientReadOnly::execute_read_only_transaction, from
src/client/read_only.rs lines 409-434. The network call
`dev_inspect_transaction_block(sender, tx, ..)` is passed in as the function
`dev_inspect` from sender address and transaction to its outcome, and the
BCS deserializer `bcs::from_bytes::<T>` as `from_bytes`. -/
def execute_read_only_transaction {α : Type}
    (dev_inspect : Nat → Ptb → Except String DevInspectResults)
    (from_bytes : List Nat → Except String α) (tx : Ptb) : Except Error α := do
  let inspection_result ←
    match dev_inspect IotaAddress_ZERO tx with
    | .ok r => Except.ok r
    | .error e =>
        Except.error
          (Error.UnexpectedApiResponse ("Failed to inspect transaction block: " ++ e))
  let execution_results ←
    match inspection_result.results with
    | some rs => Except.ok rs
    | Option.none => Except.error (Error.UnexpectedApiResponse resultsMissingMsg)
  let firstResult ←
    match execution_results with
    | [] => Except.error (Error.UnexpectedApiResponse "Execution results list is empty")
    | r :: _ => Except.ok r
  let return_value_bytes ←
    match firstResult.return_values with
    | [] => Except.error (Error.InvalidArgument "should have at least one return value")
    | v :: _ => Except.ok v
  match from_bytes return_value_bytes with
  | .ok out => Except.ok out
  | .error e => Except.error (Error.DeserializationError e)

/-- True for a UTF-8 continuation byte (`0x80..=0xBF`). -/
def isUtf8Cont (b : Nat) : Bool :=
  decide (0x80 ≤ b) && decide (b ≤ 0xBF)

/-- Decoding of one UTF-8 scalar: given the lead byte and the following
bytes, returns the decoded code point and how many continuation bytes were
consumed, or `none` on malformed input. Implements the strict validation of
`String::from_utf8` in the Rust standard library: rejects continuation
bytes out of place, overlong encodings (lead bytes `0xC0`, `0xC1`, and the
low ranges of `0xE0`/`0xF0`), surrogate code points (via the `0xED`
restriction), and code points above `0x10FFFF` (lead bytes above `0xF4` and
the high range of `0xF4`). -/
def utf8DecodeStep (b : Nat) (bs : List Nat) : Option (Nat × Nat) :=
  if b < 0x80 then some (b, 0)
  else if b < 0xC2 then Option.none
  else if b ≤ 0xDF then
    match bs with
    | b1 :: _ =>
        if isUtf8Cont b1 then some ((b - 0xC0) * 0x40 + (b1 - 0x80), 1)
        else Option.none
    | [] => Option.none
  else if b ≤ 0xEF then
    match bs with
    | b1 :: b2 :: _ =>
        if isUtf8Cont b1 && isUtf8Cont b2
            && (decide (b ≠ 0xE0) || decide (0xA0 ≤ b1))
            && (decide (b ≠ 0xED) || decide (b1 ≤ 0x9F)) then
          some ((b - 0xE0) * 0x1000 + (b1 - 0x80) * 0x40 + (b2 - 0x80), 2)
        else Option.none
    | _ => Option.none
  else if b ≤ 0xF4 then
    match bs with
    | b1 :: b2 :: b3 :: _ =>
        if isUtf8Cont b1 && isUtf8Cont b2 && isUtf8Cont b3
            && (decide (b ≠ 0xF0) || decide (0x90 ≤ b1))
            && (decide (b ≠ 0xF4) || decide (b1 ≤ 0x8F)) then
          some ((b - 0xF0) * 0x40000 + (b1 - 0x80) * 0x1000 + (b2 - 0x80) * 0x40 + (b3 - 0x80), 3)
        else Option.none
    | _ => Option.none
  else Option.none

/-- Fuel-driven scalar-by-scalar UTF-8 decoding loop. One unit of fuel is
spent per decoded scalar; since every scalar consumes at least the lead
byte, fuel equal to the byte count (as supplied by `utf8Decode`) is always
sufficient, and the `none` at exhausted fuel is never reached from
`utf8Decode`. -/
def utf8DecodeAux : Nat → List Nat → Option (List Char)
  | _, [] => some []
  | 0, _ :: _ => Option.none
  | fuel + 1, b :: bs =>
      match utf8DecodeStep b bs with
      | some (cp, k) =>
          match utf8DecodeAux fuel (bs.drop k) with
          | some cs => some (Char.ofNat cp :: cs)
          | Option.none => Option.none
      | Option.none => Option.none

/-- Strict UTF-8 decoding of a byte sequence into its list of unicode
scalar values, as performed by `String::from_utf8` in the Rust standard
library. -/
def utf8Decode (bytes : List Nat) : Option (List Char) :=
  utf8DecodeAux bytes.length bytes

/-- char::is_ascii_graphic from the Rust standard library:
`'!'..='~'`, that is code points `0x21..=0x7E`. -/
def is_ascii_graphic (c : Char) : Bool :=
  decide (0x21 ≤ c.toNat) && decide (c.toNat ≤ 0x7E)

/-- char::is_ascii_whitespace from the Rust standard library: space, tab,
line feed, form feed, carriage return. -/
def is_ascii_whitespace (c : Char) : Bool :=
  decide (c.toNat = 0x20) || decide (c.toNat = 0x09) || decide (c.toNat = 0x0A)
    || decide (c.toNat = 0x0C) || decide (c.toNat = 0x0D)

/-- The Deserialize implementation for `Data`, from src/core/types/state.rs
lines 82-101, applied to the byte payload obtained from
`Vec::<u8>::deserialize`: interpret as `Text` when the bytes are valid UTF-8
and every character is printable ASCII or ASCII whitespace, otherwise keep
them as `Bytes`. Total on its byte-sequence input. -/
def dataDeserialize (bytes : List Nat) : Data :=
  match utf8Decode bytes with
  | some cs =>
      if cs.all (fun c => is_ascii_graphic c || is_ascii_whitespace c) then
        Data.Text (String.mk cs)
      else
        Data.Bytes bytes
  | Option.none => Data.Bytes bytes

/-!
Theorems.
-/

theorem ok_bind {ε α β : Type} (a : α) (f : α → Except ε β) :
    (Except.ok a >>= f : Except ε β) = f a := rfl

theorem error_bind {ε α β : Type} (e : ε) (f : α → Except ε β) :
    (Except.error e >>= f : Except ε β) = Except.error e := rfl

/-- Claim C1: the two pure invariant-check functions compute exactly the
stated conditions — `are_dynamic_notarization_invariants_ok` holds iff the
locking is absent or has both update and delete locks `None` and a
transfer lock other than `None`; `are_locked_notarization_invariants_ok`
holds iff the locking is present with update and transfer locks
`UntilDestroyed`, the delete lock being unconstrained — and the six spec
vectors evaluate as stated. -/
theorem invariant_checks_characterization :
    (∀ l, are_dynamic_notarization_invariants_ok l = true ↔
      (l = Option.none ∨ ∃ m, l = some m ∧ m.update_lock = TimeLock.none ∧
        m.delete_lock = TimeLock.none ∧ m.transfer_lock ≠ TimeLock.none)) ∧
    (∀ l, are_locked_notarization_invariants_ok l = true ↔
      (∃ m, l = some m ∧ m.update_lock = TimeLock.untilDestroyed ∧
        m.transfer_lock = TimeLock.untilDestroyed)) ∧
    are_dynamic_notarization_invariants_ok Option.none = true ∧
    are_dynamic_notarization_invariants_ok
      (some ⟨TimeLock.none, TimeLock.none, TimeLock.untilDestroyed⟩) = true ∧
    are_dynamic_notarization_invariants_ok
      (some ⟨TimeLock.none, TimeLock.none, TimeLock.none⟩) = false ∧
    are_locked_notarization_invariants_ok Option.none = false ∧
    are_locked_notarization_invariants_ok
      (some ⟨TimeLock.untilDestroyed, TimeLock.untilDestroyed, TimeLock.untilDestroyed⟩) = true ∧
    are_locked_notarization_invariants_ok
      (some ⟨TimeLock.untilDestroyed, TimeLock.untilDestroyed, TimeLock.none⟩) = false := by
  refine ⟨?_, ?_, by decide, by decide, by decide, by decide, by decide, by decide⟩
  · intro l
    cases l with
    | none => simp [are_dynamic_notarization_invariants_ok]
    | some m =>
        simp [are_dynamic_notarization_invariants_ok, and_assoc, and_comm, and_left_comm]
  · intro l
    cases l with
    | none => simp [are_locked_notarization_invariants_ok]
    | some m =>
        simp [are_locked_notarization_invariants_ok, and_comm]

/-- Claim C9: state construction and accessor round trips — `from_bytes`
then `as_bytes` returns the bytes, `from_string` then `as_text` returns the
string, and each wrong accessor fails with an error, for every payload and
metadata. -/
theorem state_accessor_roundtrip (b : List Nat) (s : String) (m m2 : Option String) :
    (State.from_bytes b m).data.as_bytes = Except.ok b ∧
    (State.from_string s m2).data.as_text = Except.ok s ∧
    (State.from_string s m2).data.as_bytes =
      Except.error (Error.GenericError "Data is not a vector") ∧
    (State.from_bytes b m).data.as_text =
      Except.error (Error.GenericError "Data is not a string") :=
  ⟨rfl, rfl, rfl, rfl⟩

/-- Claim C5: evaluation of `parse_type` at the five spec vectors, and at
the input "a>b<c" whose last `>` precedes its first `<`, where the source
slice `full_type[start + 1..end]` has start byte 4 and end byte 1 and the
Rust slice operation panics instead of returning `Ok` or `Err`. -/
theorem parse_type_vectors_and_panic :
    parse_type "pkg::mod::T<vector<u8>>" = ParseOutcome.ok "vector<u8>" ∧
    parse_type "pkg::mod::T<A<B>>" = ParseOutcome.ok "A<B>" ∧
    parse_type "pkg::mod::T<u8, vector<u8>>" = ParseOutcome.ok "u8, vector<u8>" ∧
    parse_type "pkg::mod::T<>" = ParseOutcome.ok "" ∧
    parse_type "pkg::mod::T" =
      ParseOutcome.err
        (Error.FailedToParseTag "Could not parse type parameter from pkg::mod::T") ∧
    parse_type "a>b<c" = ParseOutcome.panicked := by
  exact ⟨by decide, by decide, by decide, by decide, by decide, by decide⟩

/-- Claim C8 counterexample: at package id 1, a `vector<u8>` type tag,
object reference (2, 3, 4) and recipient 5, the sequence compiled by
`transfer_notarization` differs from the one `build_transaction` produces
for the transfer method with the recipient-plus-clock argument closure:
the former emits the recipient input before the object input and targets
module `dynamic_notarization`, the latter emits the object input first and
targets module `notarization`. -/
theorem transfer_notarization_not_build_transaction :
    transfer_notarization 1 TypeTag.vectorU8 ⟨2, 3, 4⟩ 5
      ≠ transfer_via_build_transaction 1 TypeTag.vectorU8 ⟨2, 3, 4⟩ 5 := by
  decide

/-- Claim C8 (amended): for every package id, type tag, object reference
and recipient, `transfer_notarization` compiles inputs
[recipient, object, clock] with a single call to
`dynamic_notarization::transfer` on the resolved type with call arguments
[object, recipient, clock], while the generic `build_transaction` helper
applied to the transfer method and the recipient-plus-clock closure
compiles inputs [object, recipient, clock] with a single call to
`notarization::transfer`; the two sequences are never equal. The
hypothesis that the object is not the clock singleton marks the boundary
of the append-only input model, in which the concrete builder would
otherwise merge or reject the duplicated object id. -/
theorem transfer_notarization_shape (pkg : Nat) (tag : TypeTag) (ref_ : ObjectRef)
    (recipient : Nat) (_h : ref_.objectId ≠ IOTA_CLOCK_OBJECT_ID) :
    transfer_notarization pkg tag ref_ recipient =
      Except.ok
        { inputs := [PtbInput.pureArg (PureValue.addressVal recipient),
            PtbInput.objArg (ObjectArg.immOrOwnedObject ref_),
            PtbInput.objArg clockObjectArg],
          commands := [{ package := pkg, moduleName := "dynamic_notarization",
                         functionName := "transfer", typeArgs := [tag],
                         args := [Argument.input 1, Argument.input 0, Argument.input 2] }] } ∧
    transfer_via_build_transaction pkg tag ref_ recipient =
      Except.ok
        { inputs := [PtbInput.objArg (ObjectArg.immOrOwnedObject ref_),
            PtbInput.pureArg (PureValue.addressVal recipient),
            PtbInput.objArg clockObjectArg],
          commands := [{ package := pkg, moduleName := "notarization",
                         functionName := "transfer", typeArgs := [tag],
                         args := [Argument.input 0, Argument.input 1, Argument.input 2] }] } ∧
    transfer_notarization pkg tag ref_ recipient
      ≠ transfer_via_build_transaction pkg tag ref_ recipient := by
  refine ⟨rfl, rfl, ?_⟩
  intro hc
  injection hc with hptb
  injection hptb with hinputs hcmds
  injection hinputs with hhead htail
  exact PtbInput.noConfusion hhead

/-- Witness for the amended claim C8 theorem at package id 3, a
`vector<u8>` tag, object reference (9, 1, 1) and recipient 4. -/
theorem transfer_notarization_shape_witness :
    transfer_notarization 3 TypeTag.vectorU8 ⟨9, 1, 1⟩ 4 =
      Except.ok
        { inputs := [PtbInput.pureArg (PureValue.addressVal 4),
            PtbInput.objArg (ObjectArg.immOrOwnedObject ⟨9, 1, 1⟩),
            PtbInput.objArg clockObjectArg],
          commands := [{ package := 3, moduleName := "dynamic_notarization",
                         functionName := "transfer", typeArgs := [TypeTag.vectorU8],
                         args := [Argument.input 1, Argument.input 0, Argument.input 2] }] } :=
  (transfer_notarization_shape 3 TypeTag.vectorU8 ⟨9, 1, 1⟩ 4 (by decide)).1

theorem new_locked_isOk (pkg : Nat) (s : State) (d m : Option String) (l : TimeLock) :
    ∃ p, new_locked pkg s d m l = Except.ok p := by
  cases s with
  | mk data metadata => cases data <;> cases l <;> exact ⟨_, rfl⟩

theorem new_dynamic_isOk (pkg : Nat) (s : State) (d m : Option String) (l : TimeLock) :
    ∃ p, new_dynamic pkg s d m l = Except.ok p := by
  cases s with
  | mk data metadata => cases data <;> cases l <;> exact ⟨_, rfl⟩

theorem lockedApi_fields {b : NotarizationBuilder} (hb : LockedApi b) :
    b.method = NotarizationMethod.Locked ∧ b.transfer_lock = Option.none := by
  induction hb <;>
    simp_all [NotarizationBuilder.locked, NotarizationBuilder.with_state,
      NotarizationBuilder.with_bytes_state, NotarizationBuilder.with_string_state,
      NotarizationBuilder.with_immutable_description,
      NotarizationBuilder.with_updatable_metadata, NotarizationBuilder.with_delete_lock]

theorem dynamicApi_fields {b : NotarizationBuilder} (hb : DynamicApi b) :
    b.method = NotarizationMethod.Dynamic ∧ b.delete_lock = Option.none := by
  induction hb <;>
    simp_all [NotarizationBuilder.dynamic, NotarizationBuilder.with_state,
      NotarizationBuilder.with_bytes_state, NotarizationBuilder.with_string_state,
      NotarizationBuilder.with_immutable_description,
      NotarizationBuilder.with_updatable_metadata, NotarizationBuilder.with_transfer_lock]

/-- Claim C2: compiling a create transaction with no state set fails with
`InvalidArgument` for either method, and this required-field check takes
precedence over the forbidden opposite-method-lock check; with state set, a
delete lock on a Dynamic builder or a transfer lock on a Locked builder
fails with `InvalidArgument` — no missing or forbidden field is silently
defaulted on these paths. -/
theorem make_ptb_required_and_forbidden (b : NotarizationBuilder) (p : Nat) :
    (b.state = Option.none →
      CreateNotarization.make_ptb ⟨b⟩ (Except.ok p) =
        Except.error (Error.InvalidArgument "State is required")) ∧
    (b.state.isSome = true → b.method = NotarizationMethod.Dynamic →
      b.delete_lock.isSome = true →
      CreateNotarization.make_ptb ⟨b⟩ (Except.ok p) =
        Except.error
          (Error.InvalidArgument "Delete lock cannot be set for dynamic notarizations")) ∧
    (b.state.isSome = true → b.method = NotarizationMethod.Locked →
      b.transfer_lock.isSome = true →
      CreateNotarization.make_ptb ⟨b⟩ (Except.ok p) =
        Except.error
          (Error.InvalidArgument "Transfer lock cannot be set for locked notarizations")) := by
  refine ⟨?_, ?_, ?_⟩
  · intro hs
    simp [CreateNotarization.make_ptb, hs, ok_bind, error_bind]
  · intro hs hm hd
    obtain ⟨s, hss⟩ := Option.isSome_iff_exists.mp hs
    obtain ⟨dl, hdl⟩ := Option.isSome_iff_exists.mp hd
    simp [CreateNotarization.make_ptb, hss, hm, hdl, ok_bind, error_bind]
  · intro hs hm ht
    obtain ⟨s, hss⟩ := Option.isSome_iff_exists.mp hs
    obtain ⟨tl, htl⟩ := Option.isSome_iff_exists.mp ht
    simp [CreateNotarization.make_ptb, hss, hm, htl, ok_bind, error_bind]

/-- Witness for the claim C2 theorem: a Dynamic builder with no state but a
forbidden delete lock set fails with the state error (precedence), a
Dynamic builder with state and delete lock fails with the delete-lock
error, and a Locked builder with state and transfer lock fails with the
transfer-lock error. -/
theorem make_ptb_required_and_forbidden_witness :
    CreateNotarization.make_ptb
        ⟨{ state := Option.none, immutable_description := Option.none,
           updatable_metadata := Option.none,
           delete_lock := some TimeLock.untilDestroyed,
           transfer_lock := Option.none, method := NotarizationMethod.Dynamic }⟩
        (Except.ok 7) =
      Except.error (Error.InvalidArgument "State is required") ∧
    CreateNotarization.make_ptb
        ⟨{ state := some (State.from_string "x" Option.none),
           immutable_description := Option.none, updatable_metadata := Option.none,
           delete_lock := some TimeLock.untilDestroyed,
           transfer_lock := Option.none, method := NotarizationMethod.Dynamic }⟩
        (Except.ok 7) =
      Except.error
        (Error.InvalidArgument "Delete lock cannot be set for dynamic notarizations") ∧
    CreateNotarization.make_ptb
        ⟨{ state := some (State.from_string "x" Option.none),
           immutable_description := Option.none, updatable_metadata := Option.none,
           delete_lock := Option.none,
           transfer_lock := some TimeLock.untilDestroyed,
           method := NotarizationMethod.Locked }⟩
        (Except.ok 7) =
      Except.error
        (Error.InvalidArgument "Transfer lock cannot be set for locked notarizations") :=
  ⟨(make_ptb_required_and_forbidden _ 7).1 rfl,
   (make_ptb_required_and_forbidden _ 7).2.1 rfl rfl rfl,
   (make_ptb_required_and_forbidden _ 7).2.2 rfl rfl rfl⟩

/-- Claim C3: every builder configuration reachable through the Locked API
finishes with `Ok`; given a state, its compile succeeds, delegating to
`new_locked` with the delete lock defaulted to `TimeLock::None` when unset;
and the derived lock metadata is always update `UntilDestroyed`, the delete
lock of the caller or `None`, transfer `UntilDestroyed`. -/
theorem locked_builder_finish_and_compile (b : NotarizationBuilder) (hb : LockedApi b) :
    b.finishLocked = Except.ok { transaction := { builder := b } } ∧
    (∀ s p, b.state = some s →
      CreateNotarization.make_ptb ⟨b⟩ (Except.ok p) =
        new_locked p s b.immutable_description b.updatable_metadata
          (b.delete_lock.getD TimeLock.none) ∧
      ∃ ptx, CreateNotarization.make_ptb ⟨b⟩ (Except.ok p) = Except.ok ptx) ∧
    lockedLocking b.delete_lock =
      some { update_lock := TimeLock.untilDestroyed,
             delete_lock := b.delete_lock.getD TimeLock.none,
             transfer_lock := TimeLock.untilDestroyed } := by
  obtain ⟨hm, ht⟩ := lockedApi_fields hb
  refine ⟨rfl, ?_, rfl⟩
  intro s p hs
  have heq : CreateNotarization.make_ptb ⟨b⟩ (Except.ok p) =
      new_locked p s b.immutable_description b.updatable_metadata
        (b.delete_lock.getD TimeLock.none) := by
    simp [CreateNotarization.make_ptb, hs, hm, ht, ok_bind, lockedLocking,
      are_locked_notarization_invariants_ok]
  obtain ⟨q, hq⟩ := new_locked_isOk p s b.immutable_description b.updatable_metadata
    (b.delete_lock.getD TimeLock.none)
  exact ⟨heq, q, heq.trans hq⟩

/-- Witness for the claim C3 theorem: a Locked builder with a string state
and no delete lock compiles to `new_locked` with the delete lock defaulted
to `TimeLock::None`. -/
theorem locked_builder_finish_and_compile_witness :
    CreateNotarization.make_ptb
        ⟨NotarizationBuilder.locked.with_string_state "doc" Option.none⟩ (Except.ok 7) =
      new_locked 7 (State.from_string "doc" Option.none) Option.none Option.none
        TimeLock.none :=
  ((locked_builder_finish_and_compile _
      (LockedApi.with_string_state _ "doc" Option.none LockedApi.locked)).2.1
    (State.from_string "doc" Option.none) 7 rfl).1

/-- Claim C4: on the Dynamic create path with state set and no delete lock
— with no transfer lock, no lock metadata is constructed and compilation
succeeds, passing `TimeLock::None` as the transfer-lock argument; with a
transfer lock `t`, the derived metadata is update `None`, delete `None`,
transfer `t`, and compilation succeeds whenever `t` is not `None`; with the
transfer lock explicitly set to `TimeLock::None`, compilation fails with
`InvalidArgument` because the all-None metadata violates the dynamic
invariant. -/
theorem dynamic_compile_paths (b : NotarizationBuilder) (p : Nat) (s : State)
    (hm : b.method = NotarizationMethod.Dynamic) (hs : b.state = some s)
    (hd : b.delete_lock = Option.none) :
    (b.transfer_lock = Option.none →
      dynamicLocking b.transfer_lock = Option.none ∧
      CreateNotarization.make_ptb ⟨b⟩ (Except.ok p) =
        new_dynamic p s b.immutable_description b.updatable_metadata TimeLock.none ∧
      ∃ ptx, CreateNotarization.make_ptb ⟨b⟩ (Except.ok p) = Except.ok ptx) ∧
    (∀ t, b.transfer_lock = some t →
      dynamicLocking b.transfer_lock =
        some { update_lock := TimeLock.none, delete_lock := TimeLock.none,
               transfer_lock := t }) ∧
    (∀ t, b.transfer_lock = some t → t ≠ TimeLock.none →
      CreateNotarization.make_ptb ⟨b⟩ (Except.ok p) =
        new_dynamic p s b.immutable_description b.updatable_metadata t ∧
      ∃ ptx, CreateNotarization.make_ptb ⟨b⟩ (Except.ok p) = Except.ok ptx) ∧
    (b.transfer_lock = some TimeLock.none →
      CreateNotarization.make_ptb ⟨b⟩ (Except.ok p) =
        Except.error
          (Error.InvalidArgument "Dynamic notarization invariants are not satisfied")) := by
  refine ⟨?_, ?_, ?_, ?_⟩
  · intro ht
    have heq : CreateNotarization.make_ptb ⟨b⟩ (Except.ok p) =
        new_dynamic p s b.immutable_description b.updatable_metadata TimeLock.none := by
      simp [CreateNotarization.make_ptb, hs, hm, hd, ht, ok_bind, dynamicLocking,
        are_dynamic_notarization_invariants_ok]
    obtain ⟨q, hq⟩ := new_dynamic_isOk p s b.immutable_description b.updatable_metadata
      TimeLock.none
    exact ⟨by simp [dynamicLocking, ht], heq, q, heq.trans hq⟩
  · intro t ht
    simp [dynamicLocking, ht]
  · intro t ht htn
    have heq : CreateNotarization.make_ptb ⟨b⟩ (Except.ok p) =
        new_dynamic p s b.immutable_description b.updatable_metadata t := by
      simp [CreateNotarization.make_ptb, hs, hm, hd, ht, ok_bind, dynamicLocking,
        are_dynamic_notarization_invariants_ok, htn]
    obtain ⟨q, hq⟩ := new_dynamic_isOk p s b.immutable_description b.updatable_metadata t
    exact ⟨heq, q, heq.trans hq⟩
  · intro ht
    simp [CreateNotarization.make_ptb, hs, hm, hd, ht, ok_bind, error_bind, dynamicLocking,
      are_dynamic_notarization_invariants_ok]

/-- Witness for the claim C4 theorem: a Dynamic builder with a string state
and the transfer lock explicitly set to `TimeLock::None` fails with the
dynamic-invariant error. -/
theorem dynamic_compile_paths_witness :
    CreateNotarization.make_ptb
        ⟨(NotarizationBuilder.dynamic.with_string_state "x" Option.none).with_transfer_lock
            TimeLock.none⟩ (Except.ok 7) =
      Except.error
        (Error.InvalidArgument "Dynamic notarization invariants are not satisfied") :=
  (dynamic_compile_paths _ 7 (State.from_string "x" Option.none) rfl rfl rfl).2.2.2 rfl

/-- Claim C10: the invariant-violation error branch of the Locked create
path is unreachable — the lock metadata constructed there always satisfies
`are_locked_notarization_invariants_ok` for every delete lock, and with a
successful package lookup `make_ptb` never returns the Locked-invariant
`InvalidArgument` error for any builder. -/
theorem locked_invariant_error_unreachable :
    (∀ d, are_locked_notarization_invariants_ok
        (some { update_lock := TimeLock.untilDestroyed, delete_lock := d,
                transfer_lock := TimeLock.untilDestroyed }) = true) ∧
    (∀ (b : NotarizationBuilder) (p : Nat),
      CreateNotarization.make_ptb ⟨b⟩ (Except.ok p) ≠
        Except.error
          (Error.InvalidArgument "Locked notarization invariants are not satisfied")) := by
  constructor
  · intro d
    simp [are_locked_notarization_invariants_ok]
  · intro b p hc
    cases hb : b.state with
    | none => simp [CreateNotarization.make_ptb, hb, ok_bind, error_bind] at hc
    | some s =>
        cases hm : b.method with
        | Dynamic =>
            cases hd : b.delete_lock with
            | some dl => simp [CreateNotarization.make_ptb, hb, hm, hd, ok_bind] at hc
            | none =>
                cases ht : b.transfer_lock with
                | none =>
                    obtain ⟨q, hq⟩ := new_dynamic_isOk p s b.immutable_description
                      b.updatable_metadata TimeLock.none
                    simp [CreateNotarization.make_ptb, hb, hm, hd, ht, ok_bind,
                      dynamicLocking, are_dynamic_notarization_invariants_ok, hq] at hc
                | some t =>
                    cases t with
                    | none =>
                        simp [CreateNotarization.make_ptb, hb, hm, hd, ht, ok_bind,
                          dynamicLocking, are_dynamic_notarization_invariants_ok] at hc
                    | unlockAt ts =>
                        obtain ⟨q, hq⟩ := new_dynamic_isOk p s b.immutable_description
                          b.updatable_metadata (TimeLock.unlockAt ts)
                        simp [CreateNotarization.make_ptb, hb, hm, hd, ht, ok_bind,
                          dynamicLocking, are_dynamic_notarization_invariants_ok, hq] at hc
                    | untilDestroyed =>
                        obtain ⟨q, hq⟩ := new_dynamic_isOk p s b.immutable_description
                          b.updatable_metadata TimeLock.untilDestroyed
                        simp [CreateNotarization.make_ptb, hb, hm, hd, ht, ok_bind,
                          dynamicLocking, are_dynamic_notarization_invariants_ok, hq] at hc
        | Locked =>
            cases ht : b.transfer_lock with
            | some tl => simp [CreateNotarization.make_ptb, hb, hm, ht, ok_bind] at hc
            | none =>
                obtain ⟨q, hq⟩ := new_locked_isOk p s b.immutable_description
                  b.updatable_metadata (b.delete_lock.getD TimeLock.none)
                simp [CreateNotarization.make_ptb, hb, hm, ht, ok_bind, lockedLocking,
                  are_locked_notarization_invariants_ok, hq] at hc

/-- Witness for the claim C10 theorem: the constructed Locked metadata with
delete lock `TimeLock::None` satisfies the locked invariant check. -/
theorem locked_invariant_error_unreachable_witness :
    are_locked_notarization_invariants_ok
        (some { update_lock := TimeLock.untilDestroyed, delete_lock := TimeLock.none,
                transfer_lock := TimeLock.untilDestroyed }) = true :=
  locked_invariant_error_unreachable.1 TimeLock.none

/-- Claim C7 counterexample: with a simulation response whose first
execution result has an empty return-value list, the decoder fails with an
`InvalidArgument` error, which is not of the `UnexpectedApiResponse` kind —
so the claim that all three missing-payload cases yield
`UnexpectedApiResponse` is false. -/
theorem execute_read_only_missing_return_value_kind :
    execute_read_only_transaction
        (fun _ _ => Except.ok { results := some [{ return_values := [] }] })
        (fun _ => (Except.ok 0 : Except String Nat)) Ptb.empty =
      Except.error (Error.InvalidArgument "should have at least one return value") ∧
    Error.isUnexpectedApiResponse
        (Error.InvalidArgument "should have at least one return value") = false :=
  ⟨rfl, rfl⟩

/-- Claim C7 (amended): the read-only decoder always simulates from the
fixed zero-valued sender (its result depends on the simulation function
only through its value at sender zero); a failing simulation call, a
response with no results field, and an empty execution-results list each
yield an `UnexpectedApiResponse` error; a first execution result with no
first return value yields an `InvalidArgument` error; and only when all
three are present is the first return slot of the first result passed to
BCS deserialization, whose failure is wrapped as `DeserializationError`. -/
theorem execute_read_only_transaction_spec {α : Type}
    (dev_inspect dev_inspect2 : Nat → Ptb → Except String DevInspectResults)
    (from_bytes : List Nat → Except String α) (tx : Ptb) :
    (dev_inspect IotaAddress_ZERO tx = dev_inspect2 IotaAddress_ZERO tx →
      execute_read_only_transaction dev_inspect from_bytes tx =
        execute_read_only_transaction dev_inspect2 from_bytes tx) ∧
    (∀ e, dev_inspect IotaAddress_ZERO tx = Except.error e →
      execute_read_only_transaction dev_inspect from_bytes tx =
        Except.error
          (Error.UnexpectedApiResponse ("Failed to inspect transaction block: " ++ e))) ∧
    (dev_inspect IotaAddress_ZERO tx = Except.ok { results := Option.none } →
      execute_read_only_transaction dev_inspect from_bytes tx =
        Except.error (Error.UnexpectedApiResponse resultsMissingMsg)) ∧
    (dev_inspect IotaAddress_ZERO tx = Except.ok { results := some [] } →
      execute_read_only_transaction dev_inspect from_bytes tx =
        Except.error (Error.UnexpectedApiResponse "Execution results list is empty")) ∧
    (∀ r rs, dev_inspect IotaAddress_ZERO tx = Except.ok { results := some (r :: rs) } →
      r.return_values = [] →
      execute_read_only_transaction dev_inspect from_bytes tx =
        Except.error (Error.InvalidArgument "should have at least one return value")) ∧
    (∀ r rs v vs, dev_inspect IotaAddress_ZERO tx = Except.ok { results := some (r :: rs) } →
      r.return_values = v :: vs →
      execute_read_only_transaction dev_inspect from_bytes tx =
        (match from_bytes v with
         | Except.ok out => Except.ok out
         | Except.error e => Except.error (Error.DeserializationError e))) := by
  refine ⟨?_, ?_, ?_, ?_, ?_, ?_⟩
  · intro h12
    simp only [execute_read_only_transaction, h12]
  · intro e he
    simp [execute_read_only_transaction, he, ok_bind, error_bind]
  · intro hr
    simp [execute_read_only_transaction, hr, ok_bind, error_bind]
  · intro hr
    simp [execute_read_only_transaction, hr, ok_bind, error_bind]
  · intro r rs hr hrv
    simp [execute_read_only_transaction, hr, hrv, ok_bind, error_bind]
  · intro r rs v vs hr hrv
    simp [execute_read_only_transaction, hr, hrv, ok_bind, error_bind]

/-- Witness for the amended claim C7 theorem: a response with no results
field yields the `UnexpectedApiResponse` missing-results error. -/
theorem execute_read_only_transaction_spec_witness :
    execute_read_only_transaction
        (fun _ _ => Except.ok { results := Option.none })
        (fun _ => (Except.ok 0 : Except String Nat)) Ptb.empty =
      Except.error (Error.UnexpectedApiResponse resultsMissingMsg) :=
  (execute_read_only_transaction_spec (fun _ _ => Except.ok { results := Option.none })
      (fun _ _ => Except.ok { results := Option.none })
      (fun _ => Except.ok 0) Ptb.empty).2.2.1 rfl

theorem toNat_ofNat_valid {n : Nat} (h : Nat.isValidChar n) : (Char.ofNat n).toNat = n := by
  rw [Char.ofNat, dif_pos h]
  rfl

theorem goodChar_lt {c : Char}
    (h : (is_ascii_graphic c || is_ascii_whitespace c) = true) : c.toNat < 0x80 := by
  simp only [is_ascii_graphic, is_ascii_whitespace, Bool.or_eq_true, Bool.and_eq_true,
    decide_eq_true_eq] at h
  omega

theorem utf8DecodeStep_ascii {b : Nat} (bs : List Nat) (h : b < 0x80) :
    utf8DecodeStep b bs = some (b, 0) := by
  simp [utf8DecodeStep, h]

theorem utf8DecodeStep_some_inv {b : Nat} {bs : List Nat} {cp k : Nat}
    (h : utf8DecodeStep b bs = some (cp, k)) :
    (b < 0x80 ∧ cp = b ∧ k = 0) ∨ (0x80 ≤ cp ∧ Nat.isValidChar cp) := by
  unfold utf8DecodeStep at h
  split at h
  · simp only [Option.some.injEq, Prod.mk.injEq] at h
    exact Or.inl ⟨by assumption, h.1.symm, h.2.symm⟩
  · split at h
    · exact absurd h (by simp)
    · split at h
      · split at h
        · split at h
          · simp only [Option.some.injEq, Prod.mk.injEq] at h
            obtain ⟨hcp, hk⟩ := h
            subst hcp
            rename_i hcont
            simp only [isUtf8Cont, Bool.and_eq_true, decide_eq_true_eq] at hcont
            refine Or.inr ⟨by omega, ?_⟩
            simp only [Nat.isValidChar]
            omega
          · exact absurd h (by simp)
        · exact absurd h (by simp)
      · split at h
        · split at h
          · split at h
            · simp only [Option.some.injEq, Prod.mk.injEq] at h
              obtain ⟨hcp, hk⟩ := h
              subst hcp
              rename_i hguard
              simp only [isUtf8Cont, Bool.and_eq_true, Bool.or_eq_true,
                decide_eq_true_eq] at hguard
              refine Or.inr ⟨by omega, ?_⟩
              simp only [Nat.isValidChar]
              omega
            · exact absurd h (by simp)
          · exact absurd h (by simp)
        · split at h
          · split at h
            · split at h
              · simp only [Option.some.injEq, Prod.mk.injEq] at h
                obtain ⟨hcp, hk⟩ := h
                subst hcp
                rename_i hguard
                simp only [isUtf8Cont, Bool.and_eq_true, Bool.or_eq_true,
                  decide_eq_true_eq] at hguard
                refine Or.inr ⟨by omega, ?_⟩
                simp only [Nat.isValidChar]
                omega
              · exact absurd h (by simp)
            · exact absurd h (by simp)
          · exact absurd h (by simp)


theorem utf8DecodeAux_map_ascii (cs : List Char) :
    ∀ fuel, cs.length ≤ fuel → (∀ c ∈ cs, c.toNat < 0x80) →
      utf8DecodeAux fuel (cs.map Char.toNat) = some cs := by
  induction cs with
  | nil =>
      intro fuel _ _
      cases fuel <;> rfl
  | cons c cs ih =>
      intro fuel hf hlt
      cases fuel with
      | zero => simp at hf
      | succ fuel =>
          have hc : c.toNat < 0x80 := hlt c (List.mem_cons_self c cs)
          have ih2 := ih fuel (by simp at hf; omega)
            (fun x hx => hlt x (List.mem_cons_of_mem c hx))
          simp [utf8DecodeAux, utf8DecodeStep_ascii _ hc, ih2]

theorem utf8DecodeAux_ascii_eq_map :
    ∀ (fuel : Nat) (b : List Nat) (cs : List Char), utf8DecodeAux fuel b = some cs →
      (∀ c ∈ cs, c.toNat < 0x80) → b = cs.map Char.toNat := by
  intro fuel
  induction fuel with
  | zero =>
      intro b cs hd _
      cases b with
      | nil =>
          simp only [utf8DecodeAux, Option.some.injEq] at hd
          subst hd
          rfl
      | cons x xs => simp [utf8DecodeAux] at hd
  | succ fuel ih =>
      intro b cs hd hlt
      cases b with
      | nil =>
          simp only [utf8DecodeAux, Option.some.injEq] at hd
          subst hd
          rfl
      | cons x xs =>
          cases hstep : utf8DecodeStep x xs with
          | none => simp [utf8DecodeAux, hstep] at hd
          | some v =>
              obtain ⟨cp, k⟩ := v
              cases hrec : utf8DecodeAux fuel (xs.drop k) with
              | none => simp [utf8DecodeAux, hstep, hrec] at hd
              | some cs' =>
                  simp only [utf8DecodeAux, hstep, hrec, Option.some.injEq] at hd
                  subst hd
                  rcases utf8DecodeStep_some_inv hstep with ⟨hx, hcp, hk⟩ | ⟨hge, hv⟩
                  · subst hcp
                    subst hk
                    rw [List.drop_zero] at hrec
                    have htail : xs = cs'.map Char.toNat :=
                      ih xs cs' hrec (fun c hc => hlt c (List.mem_cons_of_mem _ hc))
                    have hhead : (Char.ofNat cp).toNat = cp :=
                      toNat_ofNat_valid (Or.inl (by omega))
                    simp only [List.map_cons, List.cons.injEq]
                    exact ⟨hhead.symm, htail⟩
                  · have hh := hlt (Char.ofNat cp) (List.mem_cons_self _ _)
                    rw [toNat_ofNat_valid hv] at hh
                    omega

theorem utf8Decode_map_ascii (cs : List Char) (h : ∀ c ∈ cs, c.toNat < 0x80) :
    utf8Decode (cs.map Char.toNat) = some cs :=
  utf8DecodeAux_map_ascii cs (cs.map Char.toNat).length (by simp) h

theorem utf8Decode_ascii_eq_map {b : List Nat} {cs : List Char} (hd : utf8Decode b = some cs)
    (h : ∀ c ∈ cs, c.toNat < 0x80) : b = cs.map Char.toNat :=
  utf8DecodeAux_ascii_eq_map b.length b cs hd h

/-- Claim C6: decoding a generic Data payload from storage bytes is total
and deterministic — the result is `Text t` exactly when the bytes are the
UTF-8 encoding of `t` (for such `t` every character is ASCII, so the
encoding is the byte-per-character map) and every character of `t` is
printable ASCII or ASCII whitespace; in every other case the result is
`Bytes b`, and the decode never fails on content. -/
theorem dataDeserialize_spec (b : List Nat) :
    (∀ t : String, dataDeserialize b = Data.Text t ↔
      (b = t.data.map Char.toNat ∧
        ∀ c ∈ t.data, (is_ascii_graphic c || is_ascii_whitespace c) = true)) ∧
    ((∀ t : String, dataDeserialize b ≠ Data.Text t) → dataDeserialize b = Data.Bytes b) := by
  constructor
  · intro t
    constructor
    · intro hd
      cases hdec : utf8Decode b with
      | none =>
          simp only [dataDeserialize, hdec] at hd
          exact absurd hd (by simp)
      | some cs =>
          simp only [dataDeserialize, hdec] at hd
          by_cases hall : cs.all (fun c => is_ascii_graphic c || is_ascii_whitespace c) = true
          · rw [if_pos hall] at hd
            injection hd with ht
            subst ht
            refine ⟨?_, fun c hc => (List.all_eq_true.mp hall) c hc⟩
            exact utf8Decode_ascii_eq_map hdec
              (fun c hc => goodChar_lt ((List.all_eq_true.mp hall) c hc))
          · rw [if_neg hall] at hd
            exact absurd hd (by simp)
    · rintro ⟨hb, hall⟩
      have hdec : utf8Decode b = some t.data := by
        rw [hb]
        exact utf8Decode_map_ascii t.data (fun c hc => goodChar_lt (hall c hc))
      simp only [dataDeserialize, hdec]
      rw [if_pos (List.all_eq_true.mpr hall)]
  · intro hnt
    cases hdec : utf8Decode b with
    | none => simp only [dataDeserialize, hdec]
    | some cs =>
        by_cases hall : cs.all (fun c => is_ascii_graphic c || is_ascii_whitespace c) = true
        · exact absurd (by simp only [dataDeserialize, hdec]; rw [if_pos hall])
            (hnt (String.mk cs))
        · simp only [dataDeserialize, hdec]
          rw [if_neg hall]

/-- Witness for the claim C6 theorem: the bytes [104, 105] decode to the
text "hi". -/
theorem dataDeserialize_spec_witness :
    dataDeserialize [104, 105] = Data.Text "hi" :=
  ((dataDeserialize_spec [104, 105]).1 "hi").mpr (by decide)



end Notarization
